import Mathlib

/-!
Shallow embedding of the ExamVerificationApp core (TypeScript / React Native)
and proofs about its specified properties.

The embedding covers:
* the verification-step state and the final-status aggregation of
  `completeVerification` (VerificationScreen),
* the step-completion handlers `onFaceVerificationComplete`,
  `onFingerprintComplete`, `onRetinaComplete` and the alert buttons they raise,
* `DatabaseService.verifyLogin` (lockout, anti-enumeration, bcrypt check),
* `DatabaseService.encryptBiometricData` / `decryptBiometricData` over a model
  of Node's `crypto` AES-256-GCM API,
* `DatabaseService.getEventSeverity`,
* both duplicate definitions of `DatabaseService.getCandidateByRollNumber`.

External libraries (`pg`, `bcrypt`, Node `crypto`) are modelled explicitly;
the database is modelled as explicit state, queries as pure functions on it,
and side effects (security-event logging, store queries, bcrypt invocations)
as explicit traces, so that claims about "what was logged / queried / compared"
are statable.
-/

namespace ExamVerification

/-! ## Verification step data model (src/types: `VerificationStep`) -/

/-- The `step` field of `VerificationStep`:
`'QR_SCAN' | 'FACE_RECOGNITION' | 'FINGERPRINT' | 'RETINA'`. -/
inductive StepKind
  | QR_SCAN
  | FACE_RECOGNITION
  | FINGERPRINT
  | RETINA
deriving DecidableEq, Fintype

/-- The `status` field of `VerificationStep`:
`'PENDING' | 'IN_PROGRESS' | 'COMPLETED' | 'FAILED'`. -/
inductive StepStatus
  | PENDING
  | IN_PROGRESS
  | COMPLETED
  | FAILED
deriving DecidableEq, Fintype

/-- `VerificationStep` from src/types.  The `confidence` percentage is carried
as an opaque optional payload (`Option Nat`); no claim depends on arithmetic
over it.  The `error` field is never read by the code under study and is
omitted. -/
structure VerificationStep where
  step : StepKind
  status : StepStatus
  confidence : Option Nat
deriving DecidableEq

/-- `finalStatus` values: `'VERIFIED' | 'REJECTED' | 'PARTIAL'`. -/
inductive FinalStatus
  | VERIFIED
  | REJECTED
  | PARTIAL
deriving DecidableEq, Fintype

/-- The initial `verificationSteps` state of VerificationScreen:
all four steps `PENDING`, no confidences. -/
def initialVerificationSteps : List VerificationStep :=
  [ ⟨.QR_SCAN, .PENDING, none⟩,
    ⟨.FACE_RECOGNITION, .PENDING, none⟩,
    ⟨.FINGERPRINT, .PENDING, none⟩,
    ⟨.RETINA, .PENDING, none⟩ ]

/-- A four-step list in the screen's fixed order with the given statuses
and no confidences (the shape `verificationSteps` always has at aggregation
time, since `updateVerificationStep` only maps over the initial list). -/
def mkSteps (s1 s2 s3 s4 : StepStatus) : List VerificationStep :=
  [ ⟨.QR_SCAN, s1, none⟩,
    ⟨.FACE_RECOGNITION, s2, none⟩,
    ⟨.FINGERPRINT, s3, none⟩,
    ⟨.RETINA, s4, none⟩ ]

/-- The final-status computation of `completeVerification`
(VerificationScreen, src/unnamed/part_000 lines 202-213):
filter the COMPLETED steps and the FAILED steps; all completed → VERIFIED,
else any failed → REJECTED, else PARTIAL. -/
def computeFinalStatus (steps : List VerificationStep) : FinalStatus :=
  let completedSteps := steps.filter (fun s => s.status == .COMPLETED)
  let failedSteps := steps.filter (fun s => s.status == .FAILED)
  if completedSteps.length == steps.length then .VERIFIED
  else if failedSteps.length > 0 then .REJECTED
  else .PARTIAL

/-- Modelled from the spec: the ResultAggregator precedence rule as the spec
words it — all four COMPLETED → VERIFIED; otherwise at least one FAILED →
REJECTED; otherwise PARTIAL.  Refinement target for the code's
`computeFinalStatus`. -/
def specFinalStatus (s1 s2 s3 s4 : StepStatus) : FinalStatus :=
  if s1 = .COMPLETED ∧ s2 = .COMPLETED ∧ s3 = .COMPLETED ∧ s4 = .COMPLETED then
    .VERIFIED
  else if s1 = .FAILED ∨ s2 = .FAILED ∨ s3 = .FAILED ∨ s4 = .FAILED then
    .REJECTED
  else
    .PARTIAL

/-- The code's aggregation agrees with the spec's precedence rule on every
assignment of the four step statuses. -/
lemma computeFinalStatus_mkSteps (s1 s2 s3 s4 : StepStatus) :
    computeFinalStatus (mkSteps s1 s2 s3 s4) = specFinalStatus s1 s2 s3 s4 := by
  revert s1 s2 s3 s4; decide

/-! ## The per-step booleans persisted in a VerificationResult -/

/-- Status lookup used by `completeVerification` when building the persisted
record: `verificationSteps.find(s => s.step === k)?.status`. -/
def stepStatusOf (steps : List VerificationStep) (k : StepKind) : Option StepStatus :=
  (steps.find? (fun s => s.step == k)).map (fun s => s.status)

/-- The fields of the persisted `VerificationResult` that the invariant
claims range over (per-step booleans and the final status). -/
structure ResultRecord where
  qrScanned : Bool
  faceVerified : Bool
  fingerprintVerified : Bool
  retinaVerified : Bool
  finalStatus : FinalStatus
deriving DecidableEq

/-- The record built by `completeVerification` (src/unnamed/part_000 lines
217-229): each boolean is `find(step)?.status === 'COMPLETED'` and
`finalStatus` is the aggregation over the same step list. -/
def buildVerificationResult (steps : List VerificationStep) : ResultRecord :=
  { qrScanned := stepStatusOf steps .QR_SCAN == some .COMPLETED
    faceVerified := stepStatusOf steps .FACE_RECOGNITION == some .COMPLETED
    fingerprintVerified := stepStatusOf steps .FINGERPRINT == some .COMPLETED
    retinaVerified := stepStatusOf steps .RETINA == some .COMPLETED
    finalStatus := computeFinalStatus steps }

/-- Whether some step of the list is FAILED (the extra information, beyond
the persisted booleans, that the aggregation actually depends on). -/
def anyStepFailed (steps : List VerificationStep) : Bool :=
  steps.any (fun s => s.status == .FAILED)

/-! ## VerificationScreen session state machine (src/unnamed/part_000)

The screen's React state is the record below.  Each completion handler is a
pure transition on it; an `Alert.alert` call is modelled by returning the
list of button actions the alert offers (an alert declared with no button
array shows a single dismissing OK button).  Pressing a button is the
separate transition `applyButton`. -/

/-- Values of the screen's `currentStep` state. -/
inductive ScreenStep
  | SEARCH
  | QR_SCAN
  | FACE_RECOGNITION
  | FINGERPRINT
  | RETINA
  | SUMMARY
deriving DecidableEq

/-- The React state of VerificationScreen that the step handlers touch. -/
structure SessionState where
  currentStep : ScreenStep
  steps : List VerificationStep
  showFaceRecognition : Bool
  showFingerprint : Bool
  showRetina : Bool
deriving DecidableEq

/-- The `onPress` continuations appearing on alert buttons in
VerificationScreen: `setCurrentStep(...)` closures, the face-retry closure
(`startFaceRecognition`), and buttons/dismissals with no state effect. -/
inductive ButtonAction
  | setStep (s : ScreenStep)
  | retryFace
  | dismiss
deriving DecidableEq

/-- `updateVerificationStep(step, status, confidence?)` (lines 119-127):
map over the step list, replacing the matching step's status and confidence
(the spread `{ ...s, status, confidence }` overwrites `confidence` even when
the argument is absent/undefined). -/
def updateVerificationStep (steps : List VerificationStep)
    (step : StepKind) (status : StepStatus) (confidence : Option Nat) :
    List VerificationStep :=
  steps.map (fun s => if s.step == step then ⟨s.step, status, confidence⟩ else s)

/-- `startFaceRecognition` (lines 129-138): with camera permission it opens
the face modal and marks FACE_RECOGNITION IN_PROGRESS (no confidence
argument); without permission it only shows a permission alert. -/
def startFaceRecognition (hasCameraPermission : Bool) (st : SessionState) :
    SessionState :=
  if hasCameraPermission then
    { st with
      showFaceRecognition := true
      steps := updateVerificationStep st.steps .FACE_RECOGNITION .IN_PROGRESS none }
  else st

/-- `onFaceVerificationComplete` (lines 140-159).  On success: mark
FACE_RECOGNITION COMPLETED with the result's confidence, call
`setCurrentStep('FINGERPRINT')`, and raise an alert whose Continue button
sets FINGERPRINT again.  On failure: mark FACE_RECOGNITION FAILED with the
result's confidence and raise an alert whose only button is Retry
(`startFaceRecognition`); `currentStep` is not changed on this path. -/
def onFaceVerificationComplete (st : SessionState)
    (success : Bool) (confidence : Option Nat) :
    SessionState × List ButtonAction :=
  let st := { st with showFaceRecognition := false }
  if success then
    ({ st with
        steps := updateVerificationStep st.steps .FACE_RECOGNITION .COMPLETED confidence
        currentStep := .FINGERPRINT },
     [.setStep .FINGERPRINT])
  else
    ({ st with
        steps := updateVerificationStep st.steps .FACE_RECOGNITION .FAILED confidence },
     [.retryFace])

/-- `onFingerprintComplete` (lines 166-178).  On success: mark FINGERPRINT
COMPLETED with the result's confidence; advancing to RETINA happens only via
the alert's Continue button.  On failure: mark FINGERPRINT FAILED (no
confidence argument) and raise a plain alert (default OK button only);
`currentStep` is not changed on this path. -/
def onFingerprintComplete (st : SessionState)
    (success : Bool) (confidence : Option Nat) :
    SessionState × List ButtonAction :=
  let st := { st with showFingerprint := false }
  if success then
    ({ st with
        steps := updateVerificationStep st.steps .FINGERPRINT .COMPLETED confidence },
     [.setStep .RETINA])
  else
    ({ st with
        steps := updateVerificationStep st.steps .FINGERPRINT .FAILED none },
     [.dismiss])

/-- `onRetinaComplete` (lines 185-197), symmetric to the fingerprint
handler with SUMMARY as the Finish target. -/
def onRetinaComplete (st : SessionState)
    (success : Bool) (confidence : Option Nat) :
    SessionState × List ButtonAction :=
  let st := { st with showRetina := false }
  if success then
    ({ st with
        steps := updateVerificationStep st.steps .RETINA .COMPLETED confidence },
     [.setStep .SUMMARY])
  else
    ({ st with
        steps := updateVerificationStep st.steps .RETINA .FAILED none },
     [.dismiss])

/-- Pressing an alert button: run its `onPress` continuation on the current
screen state. -/
def applyButton (hasCameraPermission : Bool) (st : SessionState) :
    ButtonAction → SessionState
  | .setStep s => { st with currentStep := s }
  | .retryFace => startFaceRecognition hasCameraPermission st
  | .dismiss => st

/-! ## Model of Node `crypto` AES-256-GCM as used by DatabaseService

`encryptBiometricData` (lines 279-293) derives a key with `scryptSync`,
draws a 16-byte random IV, encrypts with `createCipheriv('aes-256-gcm')`
and returns `ivHex ++ ":" ++ cipherHex`.  It NEVER calls
`cipher.getAuthTag()`, so the GCM authentication tag is discarded.
`decryptBiometricData` (lines 295-314) never calls
`decipher.setAuthTag(...)`; per the Node crypto API, for a GCM decipher
`decipher.final()` throws ("Unsupported state or unable to authenticate
data") unless a tag has been supplied, so the decrypt attempt always throws
and the surrounding `catch` returns the input string.

The AES-256-GCM block cipher itself is external; it is modelled by an
injective deterministic byte-wise keystream (parameterised by key and IV).
Only these facts about the real cipher are load-bearing: the ciphertext hex
encoding never contains the `':'` separator, encryption is
plaintext-recoverable only through a successful authenticated decryption,
and a GCM decipher without an auth tag fails at `final()`. -/

/-- Errors thrown by the modelled Node crypto API. -/
inductive CryptoError
  | cipherFailure
  | invalidIV
  | authenticationFailed
deriving DecidableEq

/-! JavaScript string primitives used by the service, modelled over the
character list of the string (computable in the kernel). -/

/-- JS `s.includes(c)` for a single-character needle. -/
def jsIncludes (s : String) (c : Char) : Bool :=
  s.data.any (fun x => x == c)

/-- Helper for `jsSplit`: walk the characters, cutting at the separator. -/
def jsSplitAux (sep : Char) : List Char → List Char → List (List Char)
  | [], acc => [acc.reverse]
  | c :: rest, acc =>
    if c == sep then acc.reverse :: jsSplitAux sep rest []
    else jsSplitAux sep rest (c :: acc)

/-- JS `s.split(sep)` for a single-character separator. -/
def jsSplit (s : String) (sep : Char) : List String :=
  (jsSplitAux sep s.data []).map String.mk

/-- The whitespace characters JS `trim()` removes (the ASCII ones the
inputs can contain). -/
def jsWhitespace (c : Char) : Bool :=
  c == ' ' || c == '\t' || c == '\n' || c == '\r' ||
    c.toNat == 11 || c.toNat == 12

/-- JS `s.trim()`. -/
def jsTrim (s : String) : String :=
  String.mk (((s.data.dropWhile jsWhitespace).reverse.dropWhile jsWhitespace).reverse)

/-- JS `s.toUpperCase()` (ASCII case mapping; inputs are roll numbers). -/
def jsToUpperCase (s : String) : String :=
  String.mk (s.data.map Char.toUpper)

/-- Lowercase hex digit, as produced by Node's `'hex'` encoding. -/
def hexDigit (n : Nat) : Char :=
  if n < 10 then Char.ofNat (48 + n) else Char.ofNat (87 + n % 16)

/-- Two-character lowercase hex rendering of a byte. -/
def byteToHex (b : Nat) : String :=
  String.mk [hexDigit (b / 16 % 16), hexDigit (b % 16)]

/-- Hex rendering of a byte list (Node `Buffer.toString('hex')`). -/
def bytesToHex (bs : List Nat) : String :=
  String.join (bs.map byteToHex)

/-- Value of a hex digit character, if it is one. -/
def hexDigitValue (c : Char) : Option Nat :=
  if 48 ≤ c.toNat ∧ c.toNat ≤ 57 then some (c.toNat - 48)
  else if 97 ≤ c.toNat ∧ c.toNat ≤ 102 then some (c.toNat - 87)
  else if 65 ≤ c.toNat ∧ c.toNat ≤ 70 then some (c.toNat - 55)
  else none

/-- Node `Buffer.from(s, 'hex')`: decode complete hex-digit pairs, stopping
at the first invalid or incomplete pair. -/
def hexToBytes : List Char → List Nat
  | c1 :: c2 :: rest =>
    match hexDigitValue c1, hexDigitValue c2 with
    | some h, some l => (16 * h + l) :: hexToBytes rest
    | _, _ => []
  | _ => []

/-- UTF-8 encoding of a single code point (model of Node `Buffer.from(s,
'utf8')` on each character). -/
def utf8EncodeCharModel (c : Char) : List Nat :=
  let n := c.toNat
  if n < 128 then [n]
  else if n < 2048 then [192 + n / 64, 128 + n % 64]
  else if n < 65536 then [224 + n / 4096, 128 + n / 64 % 64, 128 + n % 64]
  else [240 + n / 262144, 128 + n / 4096 % 64, 128 + n / 64 % 64, 128 + n % 64]

/-- UTF-8 bytes of a string. -/
def utf8Bytes (s : String) : List Nat :=
  s.data.flatMap utf8EncodeCharModel

/-- Abstract AES-256-GCM keystream byte at position `i` for the given key
and IV bytes (model standing in for the external cipher). -/
def gcmKeystreamByte (key : Nat) (iv : List Nat) (i : Nat) : Nat :=
  (key + iv.foldl (fun a b => a * 31 + b) 7 + 131 * i) % 256

/-- Ciphertext bytes of the modelled AES-256-GCM cipher: plaintext UTF-8
bytes XORed with the keystream. -/
def gcmCipherBytes (key : Nat) (iv : List Nat) (data : String) : List Nat :=
  (utf8Bytes data).enum.map (fun p => p.2 ^^^ gcmKeystreamByte key iv p.1)

/-- Hex ciphertext produced by `cipher.update(data,'utf8','hex') +
cipher.final('hex')` in the model. -/
def gcmEncryptHex (key : Nat) (iv : List Nat) (data : String) : String :=
  bytesToHex (gcmCipherBytes key iv data)

/-- Whether the external cipher call itself succeeds; `throwsDuringCipher`
models `scryptSync` / `createCipheriv` / `update` / `final` throwing inside
the `try` block of `encryptBiometricData`. -/
inductive CipherBehavior
  | normal
  | throwsDuringCipher
deriving DecidableEq

/-- The `try` body of `encryptBiometricData`: derive the key, build the
cipher over the fresh IV, and return `ivHex:cipherHex`. -/
def encryptAttempt (beh : CipherBehavior) (key : Nat) (iv : List Nat)
    (data : String) : Except CryptoError String :=
  match beh with
  | .throwsDuringCipher => .error .cipherFailure
  | .normal => .ok (bytesToHex iv ++ ":" ++ gcmEncryptHex key iv data)

/-- `encryptBiometricData` (DatabaseService lines 279-293): on any error in
the `try` body the `catch` logs and returns `data` unchanged ("Fallback to
unencrypted data").  `key` models the `scryptSync`-derived key and `iv` the
16 random bytes of `crypto.randomBytes(16)`, made explicit parameters. -/
def encryptBiometricData (beh : CipherBehavior) (key : Nat) (iv : List Nat)
    (data : String) : String :=
  match encryptAttempt beh key iv data with
  | .ok encrypted => encrypted
  | .error _ => data

/-- The `try` body of `decryptBiometricData` after the separator guard:
split on `':'` (array destructuring takes the first two segments), decode
the IV from hex, create the GCM decipher, run `update` and `final`.  The
code never calls `decipher.setAuthTag`, so `final` always throws: with an
empty IV `createDecipheriv` already rejects the IV, and otherwise `final`
fails authentication.  Hence every run returns an error. -/
def decryptAttempt (key : Nat) (encryptedData : String) :
    Except CryptoError String :=
  let parts := jsSplit encryptedData ':'
  let ivHex := parts.headD ""
  let iv := hexToBytes ivHex.data
  if iv.length == 0 then .error .invalidIV
  else
    .error .authenticationFailed

/-- `decryptBiometricData` (DatabaseService lines 295-314): inputs without
the `':'` separator are returned as-is ("not encrypted"); for the rest the
decrypt attempt runs and the `catch` returns the input unchanged ("Fallback
to encrypted data") when it throws. -/
def decryptBiometricData (key : Nat) (encryptedData : String) : String :=
  if jsIncludes encryptedData ':' then
    match decryptAttempt key encryptedData with
    | .ok decrypted => decrypted
    | .error _ => encryptedData
  else
    encryptedData

/-- Every run of `decryptBiometricData` returns its input: the no-separator
guard returns it directly, and the decrypt attempt always throws (no auth
tag was ever set), so the `catch` returns it as well. -/
lemma decryptAttempt_ne_ok (key : Nat) (s r : String) :
    decryptAttempt key s ≠ .ok r := by
  unfold decryptAttempt
  dsimp only
  split <;> simp

lemma decryptBiometricData_eq_self (key : Nat) (s : String) :
    decryptBiometricData key s = s := by
  unfold decryptBiometricData
  cases jsIncludes s ':' <;> simp
  cases h : decryptAttempt key s with
  | ok r => exact absurd h (decryptAttempt_ne_ok key s r)
  | error e => rfl

/-! ## DatabaseService.verifyLogin (lines 370-466)

The `verifiers` table is a list of rows; SQL `SELECT ... WHERE id = $1`
on the primary key is `List.find?`, and `UPDATE ... WHERE id = $1` maps an
update over the rows with that id.  Timestamps are milliseconds (`Nat`);
`Date.now()` is the explicit parameter `now`.  The external bcrypt library
is modelled by an injective hash, so `bcrypt.compare(pw, h)` succeeds
exactly when `h` was produced from `pw`.  Every security-event log and the
bcrypt invocation are recorded in an operation trace. -/

/-- `SECURITY_CONFIG.MAX_LOGIN_ATTEMPTS`. -/
def MAX_LOGIN_ATTEMPTS : Nat := 3

/-- `SECURITY_CONFIG.LOCKOUT_DURATION` (15 minutes in ms). -/
def LOCKOUT_DURATION : Nat := 15 * 60 * 1000

/-- Model of `bcrypt.hash(pw, saltRounds)` (external library): an injective
encoding of the password. -/
def bcryptHash (pw : String) : String :=
  "bcrypt.2b.12." ++ pw

/-- Model of `bcrypt.compare(password, hash)`: succeeds exactly when the
stored hash was produced from the candidate password. -/
def bcryptCompare (password hash : String) : Bool :=
  hash == bcryptHash password

/-- A row of the `verifiers` table. -/
structure VerifierRow where
  id : String
  name : String
  assignedDate : String
  assignedShift : String
  assignedCentre : String
  passwordHash : String
  failedAttempts : Nat
  lastFailedAttempt : Option Nat
  lastSuccessfulLogin : Option Nat
  isActive : Bool
deriving DecidableEq

/-- The verifier object returned on a successful login (password field
always echoed as the empty string). -/
structure VerifierPublic where
  id : String
  name : String
  assignedDate : String
  assignedShift : String
  assignedCentre : String
  password : String
deriving DecidableEq

/-- The result object of `verifyLogin`; absent optional JS fields are
`none`. -/
structure LoginResult where
  success : Bool
  verifier : Option VerifierPublic
  error : Option String
  accountLocked : Option Bool
deriving DecidableEq

/-- Security events emitted on the login paths. -/
inductive LoginEvent
  | LOGIN_INVALID_INPUT
  | ACCOUNT_LOCKED_ATTEMPT
  | LOGIN_INVALID_USER
  | LOGIN_FAILED
  | LOGIN_SUCCESS
deriving DecidableEq

/-- Observable operations performed by `verifyLogin`, in order. -/
inductive LoginOp
  | queryLockout
  | queryActiveVerifier
  | bcryptCompareOp
  | updateFailedAttempts
  | resetFailedAttempts
  | logEvent (e : LoginEvent)
deriving DecidableEq

/-- The database state touched by `verifyLogin`. -/
structure DbState where
  verifiers : List VerifierRow
deriving DecidableEq

/-- `UPDATE verifiers SET ... WHERE id = $1`. -/
def updateVerifierRows (db : DbState) (id : String)
    (f : VerifierRow → VerifierRow) : DbState :=
  ⟨db.verifiers.map (fun v => if v.id == id then f v else v)⟩

/-- `new Date(last_failed_attempt).getTime()`: a SQL NULL becomes
`new Date(null)`, i.e. epoch 0. -/
def lastFailedTime (v : VerifierRow) : Nat :=
  v.lastFailedAttempt.getD 0

/-- The generic failure result `{ success: false, error: 'Invalid
credentials' }`. -/
def invalidCredentialsResult : LoginResult :=
  { success := false, verifier := none,
    error := some "Invalid credentials", accountLocked := none }

/-- `verifyLogin` from the point after the lockout check: fetch the active
verifier, compare the password, and update the failure counter or reset it.
Returns the result, the new database state, and the trace of operations
performed from this point on. -/
def verifyLoginActivePhase (db : DbState) (now : Nat) (id password : String) :
    LoginResult × DbState × List LoginOp :=
  match db.verifiers.find? (fun v => v.id == id && v.isActive) with
  | none =>
    (invalidCredentialsResult, db,
     [.queryActiveVerifier, .logEvent .LOGIN_INVALID_USER])
  | some user =>
    if bcryptCompare password user.passwordHash then
      ({ success := true
         verifier := some
           { id := user.id, name := user.name,
             assignedDate := user.assignedDate,
             assignedShift := user.assignedShift,
             assignedCentre := user.assignedCentre,
             password := "" }
         error := none, accountLocked := none },
       updateVerifierRows db id
         (fun v => { v with failedAttempts := 0, lastSuccessfulLogin := some now }),
       [.queryActiveVerifier, .bcryptCompareOp, .resetFailedAttempts,
        .logEvent .LOGIN_SUCCESS])
    else
      (invalidCredentialsResult,
       updateVerifierRows db id
         (fun v => { v with failedAttempts := v.failedAttempts + 1,
                            lastFailedAttempt := some now }),
       [.queryActiveVerifier, .bcryptCompareOp, .updateFailedAttempts,
        .logEvent .LOGIN_FAILED])

/-- `DatabaseService.verifyLogin(id, password)` (lines 370-466) as a pure
transition: empty id or password (JS falsy) fails immediately; then the
lockout check loads `failed_attempts` / `last_failed_attempt` for the id
(with no `is_active` filter) and, if the account is within its lockout
window, returns `accountLocked: true` without any password comparison;
otherwise the active-verifier phase runs. -/
def verifyLogin (db : DbState) (now : Nat) (id password : String) :
    LoginResult × DbState × List LoginOp :=
  if id == "" || password == "" then
    (invalidCredentialsResult, db, [.logEvent .LOGIN_INVALID_INPUT])
  else
    match db.verifiers.find? (fun v => v.id == id) with
    | some row =>
      if MAX_LOGIN_ATTEMPTS ≤ row.failedAttempts then
        if now < lastFailedTime row + LOCKOUT_DURATION then
          ({ success := false, verifier := none,
             error := some "Account temporarily locked due to multiple failed attempts",
             accountLocked := some true },
           db, [.queryLockout, .logEvent .ACCOUNT_LOCKED_ATTEMPT])
        else
          let r := verifyLoginActivePhase db now id password
          (r.1, r.2.1, .queryLockout :: r.2.2)
      else
        let r := verifyLoginActivePhase db now id password
        (r.1, r.2.1, .queryLockout :: r.2.2)
    | none =>
      let r := verifyLoginActivePhase db now id password
      (r.1, r.2.1, .queryLockout :: r.2.2)

/-- If `v` is the first row with a given id and `v` is active, then `v` is
also the first row satisfying the active-verifier fetch. -/
lemma find?_active_of_find?_id (l : List VerifierRow) (id : String)
    (v : VerifierRow) (hfind : l.find? (fun w => w.id == id) = some v)
    (hact : v.isActive = true) :
    l.find? (fun w => w.id == id && w.isActive) = some v := by
  induction l with
  | nil => simp at hfind
  | cons h t ih =>
    rw [List.find?_cons] at hfind ⊢
    cases hc : (h.id == id) with
    | true =>
      have hv : h = v := by simpa [hc] using hfind
      subst hv
      simp [hc, hact]
    | false =>
      simp only [hc, Bool.false_and] at hfind ⊢
      exact ih hfind

/-- Updating rows by id commutes with looking up the first row with that id,
provided the update preserves the id. -/
lemma find?_updateVerifierRows (db : DbState) (id : String)
    (f : VerifierRow → VerifierRow) (hid : ∀ v, (f v).id = v.id) :
    (updateVerifierRows db id f).verifiers.find? (fun w => w.id == id)
      = (db.verifiers.find? (fun w => w.id == id)).map f := by
  unfold updateVerifierRows
  induction db.verifiers with
  | nil => simp
  | cons h t ih =>
    simp only [List.map_cons, List.find?_cons]
    cases hc : (h.id == id) with
    | true => simp [hc, hid]
    | false => simpa [hc, hid] using ih

/-! ## Security-event severity (DatabaseService.getEventSeverity, 481-490) -/

/-- Severity levels of `security_logs`. -/
inductive Severity
  | LOW
  | MEDIUM
  | HIGH
  | CRITICAL
deriving DecidableEq

/-- `getEventSeverity(event)`: membership in the three hard-coded event
lists, LOW otherwise. -/
def getEventSeverity (event : String) : Severity :=
  let criticalEvents := ["ACCOUNT_LOCKED_ATTEMPT", "SQL_INJECTION_ATTEMPT",
                         "UNAUTHORIZED_ACCESS"]
  let highEvents := ["LOGIN_FAILED", "PERMISSION_DENIED", "DATA_BREACH_ATTEMPT"]
  let mediumEvents := ["LOGIN_SUCCESS", "DATA_ACCESS", "VERIFICATION_COMPLETED"]
  if criticalEvents.contains event then .CRITICAL
  else if highEvents.contains event then .HIGH
  else if mediumEvents.contains event then .MEDIUM
  else .LOW

/-! ## DatabaseService.getCandidateByRollNumber

The class body defines this method TWICE (lines 316-367 and lines 492-538).
The first definition validates the sanitized roll number against
`/^[A-Z0-9]{6,15}$/` and throws before any candidates query when it fails;
the second definition has no validation.  In a JavaScript class body a later
method definition with the same name overwrites the earlier one, so the
method actually installed on the service is the second, non-validating one;
both are embedded below and the effective method is equated with the second.

The store interaction is recorded as a trace of queries. -/

/-- A row of the `candidates` table (fields the lookup touches). -/
structure CandidateRow where
  rollNumber : String
  name : String
  fingerprint1 : Option String
  fingerprint2 : Option String
  retinaData : Option String
deriving DecidableEq

/-- The candidate object assembled from a row, with biometric fields run
through `decryptBiometricData` when present. -/
def candidateOfRow (key : Nat) (row : CandidateRow) : CandidateRow :=
  { row with
    fingerprint1 := row.fingerprint1.map (decryptBiometricData key)
    fingerprint2 := row.fingerprint2.map (decryptBiometricData key)
    retinaData := row.retinaData.map (decryptBiometricData key) }

/-- Store operations observable from the candidate lookup. -/
inductive StoreQuery
  | securityLogInsert (event : String)
  | candidatesSelect (rollNumber : String)
deriving DecidableEq

/-- JS `rollNumber.trim().toUpperCase()`. -/
def sanitizeRollNumber (rollNumber : String) : String :=
  jsToUpperCase (jsTrim rollNumber)

/-- Whether a character matches `[A-Z0-9]`. -/
def isRollNumberChar (c : Char) : Bool :=
  (65 ≤ c.toNat && c.toNat ≤ 90) || (48 ≤ c.toNat && c.toNat ≤ 57)

/-- The test `/^[A-Z0-9]{6,15}$/.test(s)`. -/
def rollNumberPatternTest (s : String) : Bool :=
  6 ≤ s.length && s.length ≤ 15 && s.data.all isRollNumberChar

/-- Outcome of a candidate lookup: a thrown error message, or the candidate
found (if any). -/
inductive LookupOutcome
  | thrown (message : String)
  | found (c : CandidateRow)
  | notFound
deriving DecidableEq

/-- The FIRST (shadowed) definition, lines 316-367: sanitize, reject on
pattern failure (the throw is caught below, which logs `DATA_ACCESS_ERROR`
and rethrows a wrapped error), otherwise log `DATA_ACCESS` and query the
candidates table. -/
def getCandidateByRollNumber_v1 (key : Nat) (store : List CandidateRow)
    (rollNumber : String) : LookupOutcome × List StoreQuery :=
  let sanitizedRollNumber := sanitizeRollNumber rollNumber
  if !rollNumberPatternTest sanitizedRollNumber then
    (.thrown "Failed to fetch candidate: Error: Invalid roll number format",
     [.securityLogInsert "DATA_ACCESS_ERROR"])
  else
    match store.find? (fun c => c.rollNumber == sanitizedRollNumber) with
    | some row =>
      (.found (candidateOfRow key row),
       [.securityLogInsert "DATA_ACCESS", .candidatesSelect sanitizedRollNumber])
    | none =>
      (.notFound,
       [.securityLogInsert "DATA_ACCESS", .candidatesSelect sanitizedRollNumber])

/-- The SECOND definition, lines 492-538: identical except that the
pattern-validation block is absent — every input is sanitized, logged as
`DATA_ACCESS` and sent to the candidates table. -/
def getCandidateByRollNumber_v2 (key : Nat) (store : List CandidateRow)
    (rollNumber : String) : LookupOutcome × List StoreQuery :=
  let sanitizedRollNumber := sanitizeRollNumber rollNumber
  match store.find? (fun c => c.rollNumber == sanitizedRollNumber) with
  | some row =>
    (.found (candidateOfRow key row),
     [.securityLogInsert "DATA_ACCESS", .candidatesSelect sanitizedRollNumber])
  | none =>
    (.notFound,
     [.securityLogInsert "DATA_ACCESS", .candidatesSelect sanitizedRollNumber])

/-- The method actually installed on the service object: in a JS class body
the later duplicate definition wins, so the effective
`getCandidateByRollNumber` is the second, non-validating one. -/
def getCandidateByRollNumber (key : Nat) (store : List CandidateRow)
    (rollNumber : String) : LookupOutcome × List StoreQuery :=
  getCandidateByRollNumber_v2 key store rollNumber

/-! ## Concrete sample data used by witnesses and counterexamples -/

/-- A 16-byte IV for the crypto model. -/
def sampleIv : List Nat := List.range 16

/-- One of the seeded fingerprint templates (`insertSampleData`). -/
def sampleTemplate : String := "fp1_template_base64_data_rahul"

/-- The ciphertext `encryptBiometricData` produces for `sampleTemplate`
under key 0 and `sampleIv`. -/
def sampleCiphertext : String :=
  encryptBiometricData .normal 0 sampleIv sampleTemplate

/-- `sampleCiphertext` with its last hex digit flipped (a tampered
ciphertext: same IV/separator shape, different payload). -/
def tamperedCiphertext : String :=
  "000102030405060708090a0b0c0d0e0f:69e224c76ffb4cd44bcb59d56cd458cf5af471972faf25b508a83c88168b"

/-- The seeded verifier V001, after three consecutive failed logins (the
last one at t = 1000000 ms). -/
def sampleVerifier : VerifierRow :=
  { id := "V001", name := "John Doe", assignedDate := "2025-07-21",
    assignedShift := "S1", assignedCentre := "Delhi Centre 1",
    passwordHash := bcryptHash "password123",
    failedAttempts := 3, lastFailedAttempt := some 1000000,
    lastSuccessfulLogin := none, isActive := true }

/-- A verifiers table holding only `sampleVerifier`. -/
def sampleDb : DbState := ⟨[sampleVerifier]⟩

/-- The seeded verifier V001 in a clean state (no failed attempts). -/
def cleanVerifier : VerifierRow :=
  { sampleVerifier with failedAttempts := 0, lastFailedAttempt := none }

/-- A verifiers table holding only `cleanVerifier`. -/
def cleanDb : DbState := ⟨[cleanVerifier]⟩

/-- A session sitting on the face step: QR completed, face IN_PROGRESS with
the face modal open. -/
def sampleFaceSession : SessionState :=
  { currentStep := .FACE_RECOGNITION
    steps := updateVerificationStep
      (updateVerificationStep initialVerificationSteps .QR_SCAN .COMPLETED none)
      .FACE_RECOGNITION .IN_PROGRESS none
    showFaceRecognition := true
    showFingerprint := false
    showRetina := false }

/-- Updating a step kind commutes with looking it up. -/
lemma find?_updateVerificationStep (steps : List VerificationStep) (k : StepKind)
    (status : StepStatus) (conf : Option Nat) :
    (updateVerificationStep steps k status conf).find? (fun s => s.step == k)
      = (steps.find? (fun s => s.step == k)).map
          (fun s => ⟨s.step, status, conf⟩) := by
  unfold updateVerificationStep
  induction steps with
  | nil => simp
  | cons s t ih =>
    simp only [List.map_cons, List.find?_cons]
    cases hc : (s.step == k) with
    | true => simp [hc]
    | false => simpa [hc] using ih

/-- Status lookup after `updateVerificationStep` on the same kind: if the
kind was present it now carries the new status. -/
lemma stepStatusOf_update (steps : List VerificationStep) (k : StepKind)
    (status : StepStatus) (conf : Option Nat)
    (h : (stepStatusOf steps k).isSome = true) :
    stepStatusOf (updateVerificationStep steps k status conf) k = some status := by
  unfold stepStatusOf at h ⊢
  rw [find?_updateVerificationStep]
  cases hf : steps.find? (fun s => s.step == k) with
  | none => rw [hf] at h; simp at h
  | some s => simp

/-! ## Claim theorems -/

/-- Claim C2: the final-status aggregation of `completeVerification` over
the four step statuses is exactly the spec's precedence rule — all four
COMPLETED gives VERIFIED; otherwise at least one FAILED gives REJECTED;
otherwise PARTIAL — for every assignment of statuses from
PENDING/IN_PROGRESS/COMPLETED/FAILED to the four steps. -/
theorem claimC2 (s1 s2 s3 s4 : StepStatus) :
    computeFinalStatus (mkSteps s1 s2 s3 s4) = specFinalStatus s1 s2 s3 s4 :=
  computeFinalStatus_mkSteps s1 s2 s3 s4

/-- Claim C3 is false of the code (code bug): the encrypt/decrypt pair does
not round-trip.  `encryptBiometricData` discards the GCM auth tag and
`decryptBiometricData` never sets one, so its decrypt attempt always throws
and the catch returns the ciphertext itself: for the seeded template,
`decryptBiometricData (encryptBiometricData x)` is the ciphertext, which
differs from `x`. -/
theorem claimC3 :
    decryptBiometricData 0 (encryptBiometricData .normal 0 sampleIv sampleTemplate)
      = encryptBiometricData .normal 0 sampleIv sampleTemplate ∧
    encryptBiometricData .normal 0 sampleIv sampleTemplate ≠ sampleTemplate :=
  ⟨decryptBiometricData_eq_self _ _, by decide⟩

/-- Claim C4 is false of the code (code bug): on a tampered ciphertext
(one hex digit of `sampleCiphertext` flipped) the decrypt attempt throws an
authentication failure, but `decryptBiometricData` catches it and silently
returns the tampered input — a value that is not the originally encrypted
plaintext — instead of failing with an EncryptionError. -/
theorem claimC4 :
    tamperedCiphertext ≠ sampleCiphertext ∧
    jsIncludes tamperedCiphertext ':' = true ∧
    decryptAttempt 0 tamperedCiphertext = .error .authenticationFailed ∧
    decryptBiometricData 0 tamperedCiphertext = tamperedCiphertext ∧
    tamperedCiphertext ≠ sampleTemplate :=
  ⟨by decide, by decide, rfl,
   decryptBiometricData_eq_self 0 tamperedCiphertext, by decide⟩

/-- Claim C8 is false of the code (code bug): the class defines
`getCandidateByRollNumber` twice and the later, validation-free definition
is the one installed (JS last-definition-wins), so for the malformed input
"ab" (sanitized "AB" fails the `[A-Z0-9]{6,15}` pattern) the effective
method logs plain DATA_ACCESS and issues a candidates-table query with the
malformed value, while the shadowed first definition would have rejected it
before any candidates access. -/
theorem claimC8 :
    rollNumberPatternTest (sanitizeRollNumber "ab") = false ∧
    (getCandidateByRollNumber 0 [] "ab").2
      = [.securityLogInsert "DATA_ACCESS", .candidatesSelect "AB"] ∧
    (getCandidateByRollNumber_v1 0 [] "ab").2
      = [.securityLogInsert "DATA_ACCESS_ERROR"] := by
  refine ⟨by decide, ?_, ?_⟩ <;> decide

/-- Claim C10: when the underlying cipher operation throws during
encryption, `encryptBiometricData` propagates no error and returns the
plaintext input unchanged, so a template can be persisted unencrypted
without any error surfacing to the caller. -/
theorem claimC10 (key : Nat) (iv : List Nat) (data : String) :
    encryptBiometricData .throwsDuringCipher key iv data = data := rfl

/-- Counterexample to claim C9: two sessions whose persisted records carry
identical per-step booleans (qrScanned false, the rest true) but different
final statuses — PARTIAL when the QR step stayed PENDING, REJECTED when it
FAILED.  The booleans only record `status === COMPLETED`, so they cannot
distinguish a FAILED from a PENDING step and `finalStatus` is not a
function of them alone. -/
theorem claimC9_counterexample :
    (buildVerificationResult (mkSteps .PENDING .COMPLETED .COMPLETED .COMPLETED)).qrScanned
      = (buildVerificationResult (mkSteps .FAILED .COMPLETED .COMPLETED .COMPLETED)).qrScanned ∧
    (buildVerificationResult (mkSteps .PENDING .COMPLETED .COMPLETED .COMPLETED)).faceVerified
      = (buildVerificationResult (mkSteps .FAILED .COMPLETED .COMPLETED .COMPLETED)).faceVerified ∧
    (buildVerificationResult (mkSteps .PENDING .COMPLETED .COMPLETED .COMPLETED)).fingerprintVerified
      = (buildVerificationResult (mkSteps .FAILED .COMPLETED .COMPLETED .COMPLETED)).fingerprintVerified ∧
    (buildVerificationResult (mkSteps .PENDING .COMPLETED .COMPLETED .COMPLETED)).retinaVerified
      = (buildVerificationResult (mkSteps .FAILED .COMPLETED .COMPLETED .COMPLETED)).retinaVerified ∧
    (buildVerificationResult (mkSteps .PENDING .COMPLETED .COMPLETED .COMPLETED)).finalStatus
      = .PARTIAL ∧
    (buildVerificationResult (mkSteps .FAILED .COMPLETED .COMPLETED .COMPLETED)).finalStatus
      = .REJECTED := by
  decide

/-- The persisted `qrScanned` boolean is the COMPLETED test on the first
step's status. -/
lemma build_qrScanned (a b c d : StepStatus) :
    (buildVerificationResult (mkSteps a b c d)).qrScanned = (a == .COMPLETED) := rfl

/-- The persisted `faceVerified` boolean. -/
lemma build_faceVerified (a b c d : StepStatus) :
    (buildVerificationResult (mkSteps a b c d)).faceVerified = (b == .COMPLETED) := rfl

/-- The persisted `fingerprintVerified` boolean. -/
lemma build_fingerprintVerified (a b c d : StepStatus) :
    (buildVerificationResult (mkSteps a b c d)).fingerprintVerified
      = (c == .COMPLETED) := rfl

/-- The persisted `retinaVerified` boolean. -/
lemma build_retinaVerified (a b c d : StepStatus) :
    (buildVerificationResult (mkSteps a b c d)).retinaVerified = (d == .COMPLETED) := rfl

/-- The persisted `finalStatus` as a function of the four booleans plus the
presence of a FAILED step. -/
lemma build_finalStatus (a b c d : StepStatus) :
    (buildVerificationResult (mkSteps a b c d)).finalStatus =
      (if (a == .COMPLETED) && (b == .COMPLETED) && (c == .COMPLETED) && (d == .COMPLETED)
       then .VERIFIED
       else if anyStepFailed (mkSteps a b c d) then .REJECTED else .PARTIAL) := by
  revert a b c d; decide

/-- Claim C9 as amended: a persisted result's `finalStatus` is a function
of the per-step booleans TOGETHER WITH whether some step FAILED — any two
sessions agreeing on the four booleans and on the presence of a FAILED step
persist the same `finalStatus`; the booleans alone do not determine it. -/
theorem claimC9 (a b c d e f g h : StepStatus)
    (hqr : (buildVerificationResult (mkSteps a b c d)).qrScanned
         = (buildVerificationResult (mkSteps e f g h)).qrScanned)
    (hface : (buildVerificationResult (mkSteps a b c d)).faceVerified
           = (buildVerificationResult (mkSteps e f g h)).faceVerified)
    (hfp : (buildVerificationResult (mkSteps a b c d)).fingerprintVerified
         = (buildVerificationResult (mkSteps e f g h)).fingerprintVerified)
    (hret : (buildVerificationResult (mkSteps a b c d)).retinaVerified
          = (buildVerificationResult (mkSteps e f g h)).retinaVerified)
    (hfail : anyStepFailed (mkSteps a b c d) = anyStepFailed (mkSteps e f g h)) :
    (buildVerificationResult (mkSteps a b c d)).finalStatus
      = (buildVerificationResult (mkSteps e f g h)).finalStatus := by
  rw [build_qrScanned, build_qrScanned] at hqr
  rw [build_faceVerified, build_faceVerified] at hface
  rw [build_fingerprintVerified, build_fingerprintVerified] at hfp
  rw [build_retinaVerified, build_retinaVerified] at hret
  rw [build_finalStatus, build_finalStatus, hqr, hface, hfp, hret, hfail]

/-- Witness for claim C9 at a concrete pair of sessions with equal booleans
and equal failed-step presence. -/
theorem claimC9_witness :
    (buildVerificationResult (mkSteps .PENDING .COMPLETED .COMPLETED .COMPLETED)).finalStatus
      = (buildVerificationResult (mkSteps .IN_PROGRESS .COMPLETED .COMPLETED .COMPLETED)).finalStatus :=
  claimC9 .PENDING .COMPLETED .COMPLETED .COMPLETED
    .IN_PROGRESS .COMPLETED .COMPLETED .COMPLETED
    (by decide) (by decide) (by decide) (by decide) (by decide)

/-- Counterexample to claim C5: in the concrete session sitting on the face
step, a face result with `success = false` marks FACE_RECOGNITION FAILED
but the session does NOT advance to FINGERPRINT — `currentStep` stays
FACE_RECOGNITION, the raised alert offers only the Retry button, and
pressing it re-enters the face step without advancing. -/
theorem claimC5_counterexample :
    stepStatusOf (onFaceVerificationComplete sampleFaceSession false (some 60)).1.steps
        .FACE_RECOGNITION = some .FAILED ∧
    (onFaceVerificationComplete sampleFaceSession false (some 60)).1.currentStep
      ≠ ScreenStep.FINGERPRINT ∧
    (onFaceVerificationComplete sampleFaceSession false (some 60)).2 = [.retryFace] ∧
    (applyButton true (onFaceVerificationComplete sampleFaceSession false (some 60)).1
        .retryFace).currentStep ≠ ScreenStep.FINGERPRINT := by
  decide

/-- Claim C5 as amended: a failed face result marks the FACE_RECOGNITION
step FAILED but keeps the session on its current screen step, offering only
a Retry button whose press also does not change the screen step; likewise a
failed fingerprint result marks FINGERPRINT FAILED and keeps the session in
place (its alert only dismisses).  Failure never advances the session. -/
theorem claimC5 (st : SessionState) (conf : Option Nat) (b : ButtonAction)
    (perm : Bool)
    (hface : (stepStatusOf st.steps .FACE_RECOGNITION).isSome = true)
    (hfp : (stepStatusOf st.steps .FINGERPRINT).isSome = true) :
    (stepStatusOf (onFaceVerificationComplete st false conf).1.steps .FACE_RECOGNITION
        = some .FAILED ∧
     (onFaceVerificationComplete st false conf).1.currentStep = st.currentStep ∧
     (onFaceVerificationComplete st false conf).2 = [.retryFace] ∧
     (b ∈ (onFaceVerificationComplete st false conf).2 →
       (applyButton perm (onFaceVerificationComplete st false conf).1 b).currentStep
         = st.currentStep)) ∧
    (stepStatusOf (onFingerprintComplete st false conf).1.steps .FINGERPRINT
        = some .FAILED ∧
     (onFingerprintComplete st false conf).1.currentStep = st.currentStep ∧
     (onFingerprintComplete st false conf).2 = [.dismiss] ∧
     (b ∈ (onFingerprintComplete st false conf).2 →
       (applyButton perm (onFingerprintComplete st false conf).1 b).currentStep
         = st.currentStep)) := by
  refine ⟨⟨stepStatusOf_update st.steps .FACE_RECOGNITION .FAILED conf hface,
           rfl, rfl, ?_⟩,
          ⟨stepStatusOf_update st.steps .FINGERPRINT .FAILED none hfp,
           rfl, rfl, ?_⟩⟩
  · intro hb
    have e : (onFaceVerificationComplete st false conf).2 = [ButtonAction.retryFace] := rfl
    rw [e] at hb
    have hb' : b = ButtonAction.retryFace := by simpa using hb
    subst hb'
    cases perm <;> rfl
  · intro hb
    have e : (onFingerprintComplete st false conf).2 = [ButtonAction.dismiss] := rfl
    rw [e] at hb
    have hb' : b = ButtonAction.dismiss := by simpa using hb
    subst hb'
    rfl

/-- Witness for claim C5 at the concrete face-step session. -/
theorem claimC5_witness :
    (onFaceVerificationComplete sampleFaceSession false (some 60)).1.currentStep
      = sampleFaceSession.currentStep :=
  (claimC5 sampleFaceSession (some 60) .retryFace true
    (by decide) (by decide)).1.2.1

/-- Claim C7: the security-event severity mapping is exactly CRITICAL for
ACCOUNT_LOCKED_ATTEMPT, SQL_INJECTION_ATTEMPT and UNAUTHORIZED_ACCESS;
HIGH for LOGIN_FAILED, PERMISSION_DENIED and DATA_BREACH_ATTEMPT; MEDIUM
for LOGIN_SUCCESS, DATA_ACCESS and VERIFICATION_COMPLETED; and LOW for
every other event type string. -/
theorem claimC7 :
    getEventSeverity "ACCOUNT_LOCKED_ATTEMPT" = .CRITICAL ∧
    getEventSeverity "SQL_INJECTION_ATTEMPT" = .CRITICAL ∧
    getEventSeverity "UNAUTHORIZED_ACCESS" = .CRITICAL ∧
    getEventSeverity "LOGIN_FAILED" = .HIGH ∧
    getEventSeverity "PERMISSION_DENIED" = .HIGH ∧
    getEventSeverity "DATA_BREACH_ATTEMPT" = .HIGH ∧
    getEventSeverity "LOGIN_SUCCESS" = .MEDIUM ∧
    getEventSeverity "DATA_ACCESS" = .MEDIUM ∧
    getEventSeverity "VERIFICATION_COMPLETED" = .MEDIUM ∧
    (∀ e : String,
      e ∉ ["ACCOUNT_LOCKED_ATTEMPT", "SQL_INJECTION_ATTEMPT", "UNAUTHORIZED_ACCESS",
           "LOGIN_FAILED", "PERMISSION_DENIED", "DATA_BREACH_ATTEMPT",
           "LOGIN_SUCCESS", "DATA_ACCESS", "VERIFICATION_COMPLETED"] →
        getEventSeverity e = .LOW) := by
  refine ⟨rfl, rfl, rfl, rfl, rfl, rfl, rfl, rfl, rfl, ?_⟩
  intro e he
  simp only [List.mem_cons, not_or] at he
  unfold getEventSeverity
  simp [List.contains, List.elem_eq_mem, he.1, he.2.1, he.2.2.1, he.2.2.2.1,
        he.2.2.2.2.1, he.2.2.2.2.2.1, he.2.2.2.2.2.2.1, he.2.2.2.2.2.2.2.1,
        he.2.2.2.2.2.2.2.2.1]

/-- Witness for claim C7: the LOW clause applied at an event type outside
the three hard-coded lists. -/
theorem claimC7_witness : getEventSeverity "CSV_IMPORT" = .LOW :=
  claimC7.2.2.2.2.2.2.2.2.2 "CSV_IMPORT" (by decide)

/-- Claim C1: for a verifier record with `failedAttempts ≥
MAX_LOGIN_ATTEMPTS`, a correct-password login while `now <
lastFailedAttempt + LOCKOUT_DURATION` returns `accountLocked = true` with
`success = false`, no verifier field and no bcrypt comparison in the
operation trace; once `now ≥ lastFailedAttempt + LOCKOUT_DURATION`, the
same correct password (on the active account) succeeds and resets
`failedAttempts` to 0. -/
theorem claimC1 (db : DbState) (now : Nat) (id password : String)
    (v : VerifierRow)
    (hfind : db.verifiers.find? (fun w => w.id == id) = some v)
    (hid : id ≠ "") (hpw : password ≠ "")
    (hfa : MAX_LOGIN_ATTEMPTS ≤ v.failedAttempts)
    (hcorrect : bcryptCompare password v.passwordHash = true) :
    (now < lastFailedTime v + LOCKOUT_DURATION →
      (verifyLogin db now id password).1 =
        { success := false, verifier := none,
          error := some "Account temporarily locked due to multiple failed attempts",
          accountLocked := some true } ∧
      LoginOp.bcryptCompareOp ∉ (verifyLogin db now id password).2.2) ∧
    (lastFailedTime v + LOCKOUT_DURATION ≤ now → v.isActive = true →
      (verifyLogin db now id password).1.success = true ∧
      (verifyLogin db now id password).2.1.verifiers.find? (fun w => w.id == id)
        = some { v with failedAttempts := 0, lastSuccessfulLogin := some now }) := by
  have hempty : (id == "" || password == "") = false := by
    simp [hid, hpw]
  constructor
  · intro hlt
    unfold verifyLogin
    rw [hempty, hfind]
    simp only [Bool.false_eq_true, if_false, hfa, hlt, if_true]
    exact ⟨trivial, by decide⟩
  · intro hge hact
    have hnlt : ¬ now < lastFailedTime v + LOCKOUT_DURATION := not_lt.mpr hge
    have hactive := find?_active_of_find?_id db.verifiers id v hfind hact
    unfold verifyLogin verifyLoginActivePhase
    rw [hempty, hfind]
    simp only [Bool.false_eq_true, if_false, hfa, if_true, hnlt, hactive,
               hcorrect]
    refine ⟨trivial, ?_⟩
    rw [find?_updateVerifierRows db id
          (fun w => { w with failedAttempts := 0, lastSuccessfulLogin := some now })
          (fun w => rfl), hfind]
    rfl

/-- Witness for claim C1: the seeded verifier V001 after three failed
attempts (last at t = 1000000 ms) — a correct-password login 1 ms later is
locked out; the same login at t = 1000000 + LOCKOUT_DURATION succeeds. -/
theorem claimC1_witness :
    (verifyLogin sampleDb 1000001 "V001" "password123").1 =
      { success := false, verifier := none,
        error := some "Account temporarily locked due to multiple failed attempts",
        accountLocked := some true } ∧
    (verifyLogin sampleDb (1000000 + LOCKOUT_DURATION) "V001" "password123").1.success
      = true := by
  constructor
  · exact ((claimC1 sampleDb 1000001 "V001" "password123" sampleVerifier
      (by decide) (by decide) (by decide) (by decide) (by decide)).1 (by decide)).1
  · exact ((claimC1 sampleDb (1000000 + LOCKOUT_DURATION) "V001" "password123"
      sampleVerifier (by decide) (by decide) (by decide) (by decide)
      (by decide)).2 (by decide) (by decide)).1

/-- Counterexample to claim C6: the lockout check runs before the
active-verifier fetch, so when the existing active verifier is inside its
lockout window, a wrong-password attempt against it returns the distinct
`accountLocked = true` outcome while an unknown id returns the generic
'Invalid credentials' outcome — the two outcomes differ, revealing that the
locked id exists. -/
theorem claimC6_counterexample :
    sampleDb.verifiers.find? (fun w => w.id == "GHOST") = none ∧
    sampleVerifier.isActive = true ∧
    bcryptCompare "wrongpass" sampleVerifier.passwordHash = false ∧
    (verifyLogin sampleDb 1000001 "GHOST" "wrongpass").1
      ≠ (verifyLogin sampleDb 1000001 "V001" "wrongpass").1 ∧
    (verifyLogin sampleDb 1000001 "GHOST" "wrongpass").1 = invalidCredentialsResult ∧
    (verifyLogin sampleDb 1000001 "V001" "wrongpass").1.accountLocked = some true := by
  decide

/-- Claim C6 as amended: provided neither attempt triggers the lockout
branch (no verifier row with the unknown-id attempt's id is inside its
lockout window, and the targeted active verifier is not either), a login
with an id matching no active verifier and a login against an existing
active verifier with a wrong password return the identical outcome —
`success = false`, error 'Invalid credentials', no verifier field, no
accountLocked flag — so outside the lockout window the result does not
reveal whether the id exists. -/
theorem claimC6 (db : DbState) (now : Nat) (idA pwA idB pwB : String)
    (vB : VerifierRow)
    (hAlock : ∀ v ∈ db.verifiers, v.id = idA →
        ¬(MAX_LOGIN_ATTEMPTS ≤ v.failedAttempts ∧
          now < lastFailedTime v + LOCKOUT_DURATION))
    (hAnone : db.verifiers.find? (fun w => w.id == idA && w.isActive) = none)
    (hB : db.verifiers.find? (fun w => w.id == idB) = some vB)
    (hBact : vB.isActive = true)
    (hBnolock : ¬(MAX_LOGIN_ATTEMPTS ≤ vB.failedAttempts ∧
        now < lastFailedTime vB + LOCKOUT_DURATION))
    (hBwrong : bcryptCompare pwB vB.passwordHash = false) :
    (verifyLogin db now idA pwA).1 = invalidCredentialsResult ∧
    (verifyLogin db now idB pwB).1 = invalidCredentialsResult := by
  constructor
  · by_cases hempty : (idA == "" || pwA == "") = true
    · unfold verifyLogin
      rw [hempty]
      rfl
    · have hempty' : (idA == "" || pwA == "") = false :=
        Bool.eq_false_iff.mpr hempty
      unfold verifyLogin verifyLoginActivePhase
      rw [hempty']
      simp only [Bool.false_eq_true, if_false]
      cases hfA : db.verifiers.find? (fun w => w.id == idA) with
      | none => rw [hAnone]
      | some row =>
        have hrow_id : row.id = idA := by
          have hp := List.find?_some hfA
          simpa using hp
        have hrow_mem := List.mem_of_find?_eq_some hfA
        have hnolock := hAlock row hrow_mem hrow_id
        by_cases hmax : MAX_LOGIN_ATTEMPTS ≤ row.failedAttempts
        · have hnlt : ¬ now < lastFailedTime row + LOCKOUT_DURATION :=
            fun hlt => hnolock ⟨hmax, hlt⟩
          simp only [hmax, if_true, hnlt, if_false, hAnone]
        · simp only [hmax, if_false, hAnone]
  · by_cases hempty : (idB == "" || pwB == "") = true
    · unfold verifyLogin
      rw [hempty]
      rfl
    · have hempty' : (idB == "" || pwB == "") = false :=
        Bool.eq_false_iff.mpr hempty
      have hBactive := find?_active_of_find?_id db.verifiers idB vB hB hBact
      unfold verifyLogin verifyLoginActivePhase
      rw [hempty', hB]
      simp only [Bool.false_eq_true, if_false]
      by_cases hmax : MAX_LOGIN_ATTEMPTS ≤ vB.failedAttempts
      · have hnlt : ¬ now < lastFailedTime vB + LOCKOUT_DURATION :=
          fun hlt => hBnolock ⟨hmax, hlt⟩
        simp only [hmax, if_true, hnlt, if_false, hBactive, hBwrong]
        rfl
      · simp only [hmax, if_false, hBactive, hBwrong]
        rfl

/-- Witness for claim C6: with the clean seeded verifier table, an unknown
id and a wrong-password attempt against the existing active V001 return
the same generic outcome. -/
theorem claimC6_witness :
    (verifyLogin cleanDb 5 "GHOST" "password123").1 = invalidCredentialsResult ∧
    (verifyLogin cleanDb 5 "V001" "wrongpass").1 = invalidCredentialsResult :=
  claimC6 cleanDb 5 "GHOST" "password123" "V001" "wrongpass" cleanVerifier
    (by decide) (by decide) (by decide) (by decide) (by decide) (by decide)

end ExamVerification
